import Mathlib

/-!
Verification of the coefficient-notification bot (`src/main.py`).

A shallow embedding of the bot's pure decision logic:

* the coefficient filter of `check_coefficients_for_user` (lines 513-517),
* the per-user check pipeline and its error behaviour on a non-200
  coefficients fetch (`get_coefficients`, lines 100-111, returns the dict
  `{"error": status}` which the caller then iterates),
* one iteration of the `start_polling` scheduler loop (lines 479-496),
* the catalog refresh `update_warehouses_in_db` (lines 85-97),
* the subscription toggle `warehouse_selected` (lines 252-291),
* the settings handlers `process_new_polling_frequency` (404-418) and
  `process_new_notification_threshold` (430-447),
* the paginated keyboard generator `generate_warehouse_keyboard` (198-238).

Python machine-level details are embedded as follows: Python `int` values
are `Int`, the float threshold is `ℚ` (all comparisons involved are exact),
uncaught Python exceptions are an explicit `PyError` value threaded through
the affected computation, and database rows are lists of tuples.
-/

namespace CoefficientBot

/-- Uncaught Python exceptions relevant to the embedded code paths. -/
inductive PyError
  | typeError
  | zeroDivisionError
  | valueError
  | checkViolationError
deriving DecidableEq, Repr

/-- One element of the JSON array returned by the coefficients endpoint,
restricted to the fields `main.py` reads: `warehouseName`, `coefficient`
(after the source's `int(...)` coercion), `boxTypeName`, `date`. -/
structure Coefficient where
  warehouseName : String
  coefficient : Int
  boxTypeName : String
  date : String
deriving DecidableEq, Repr

/-- The guard of the filter loop in `check_coefficients_for_user`
(line 515): `-1 < int(coefficient['coefficient']) <= threshold`, a Python
chained comparison of the int-coerced value against `-1` and against the
float threshold. -/
def goodFilter (threshold : ℚ) (c : Coefficient) : Bool :=
  decide ((-1 : Int) < c.coefficient) && decide ((c.coefficient : ℚ) ≤ threshold)

/-- The `good_coefficients` list built by the loop at lines 513-516:
elements of the fetched list satisfying `goodFilter`, appended in upstream
order. -/
def good_coefficients (cs : List Coefficient) (threshold : ℚ) : List Coefficient :=
  cs.filter (goodFilter threshold)

/-- C1: a metric qualifies for notification iff `-1 < value <= threshold`;
the sentinel `-1` is always excluded, `0` qualifies when the threshold is
`0`, a value equal to the threshold qualifies, and any larger value does
not.  The second conjunct is the spec's scenario: threshold 5 on values
`[-1, 0, 5, 6]` keeps exactly `[0, 5]` in upstream order. -/
theorem qualifies_iff_between_sentinel_and_threshold :
    (∀ (T : ℚ) (cs : List Coefficient) (c : Coefficient),
      c ∈ good_coefficients cs T ↔
        c ∈ cs ∧ (-1 : Int) < c.coefficient ∧ (c.coefficient : ℚ) ≤ T)
    ∧ good_coefficients
        [⟨"W", -1, "B", "d"⟩, ⟨"W", 0, "B", "d"⟩, ⟨"W", 5, "B", "d"⟩, ⟨"W", 6, "B", "d"⟩] 5
      = [⟨"W", 0, "B", "d"⟩, ⟨"W", 5, "B", "d"⟩] := by
  constructor
  · intro T cs c
    simp [good_coefficients, goodFilter, List.mem_filter, and_assoc]
  · decide

/-- Result of `get_coefficients` (lines 100-111): on HTTP 200 the parsed
JSON list, otherwise the dict `{"error": status}` that the function builds
instead of raising. -/
inductive CoefficientsResponse
  | list (cs : List Coefficient)
  | errDict (status : Nat)
deriving DecidableEq, Repr

/-- Observable effects of one `check_coefficients_for_user` call:
whether `get_coefficients` was invoked, the payloads of the `notify_user`
calls made, and the uncaught exception, if any, that aborted the call. -/
structure CheckOutcome where
  fetched : Bool
  notifications : List (List Coefficient)
  error : Option PyError
deriving DecidableEq, Repr

/-- The function `check_coefficients_for_user` (lines 499-517).  `subs` is the user's
`user_warehouses` rows; if empty the function returns before fetching.
Otherwise it fetches and runs the filter loop.  When the fetch returned the
non-200 dict `{"error": status}`, Python's `for coefficient in coefficients`
iterates the dict's keys, so the first loop body evaluates
`'error'['coefficient']`, raising an uncaught `TypeError` before any
notification; on a 200 list, `notify_user` is called exactly once with the
filtered list (line 517), unconditionally. -/
def check_coefficients_for_user (subs : List Int) (resp : CoefficientsResponse)
    (threshold : ℚ) : CheckOutcome :=
  if subs.isEmpty then ⟨false, [], none⟩
  else
    match resp with
    | .list cs => ⟨true, [good_coefficients cs threshold], none⟩
    | .errDict _ => ⟨true, [], some .typeError⟩

/-- A row of the `users` table as selected by `start_polling` (line 485). -/
structure UserRow where
  user_id : Nat
  api_key : String
  polling_frequency : Nat
  notification_threshold : ℚ
deriving DecidableEq, Repr

/-- The due guard of `start_polling` (line 488):
`loop_num % user['polling_frequency'] == 0`.  Python's `%` raises
`ZeroDivisionError` when the frequency is `0`. -/
def dueCheck (t f : Nat) : Except PyError Bool :=
  if f = 0 then .error .zeroDivisionError else .ok (decide (t % f = 0))

/-- Observable effects of one iteration of the user loop in
`start_polling`: the ids of users whose check was invoked, the
`notify_user` calls (user id with payload), and the uncaught exception, if
any, that terminated the loop (and with it the scheduler task). -/
structure TickOutcome where
  checked : List Nat
  notified : List (Nat × List Coefficient)
  error : Option PyError
deriving DecidableEq, Repr

/-- The `for user in users` loop of `start_polling` (lines 487-493) at tick
`t`: users are processed sequentially in list order; an uncaught exception
in one user's check propagates, so later users are not processed.
`subsOf u` gives user `u`'s subscribed warehouse ids and `respOf u` the
coefficients endpoint's response for `u`'s request. -/
def runTick (t : Nat) (subsOf : Nat → List Int)
    (respOf : Nat → CoefficientsResponse) : List UserRow → TickOutcome
  | [] => ⟨[], [], none⟩
  | u :: rest =>
    match dueCheck t u.polling_frequency with
    | .error e => ⟨[], [], some e⟩
    | .ok false => runTick t subsOf respOf rest
    | .ok true =>
      let c := check_coefficients_for_user (subsOf u.user_id) (respOf u.user_id)
        u.notification_threshold
      match c.error with
      | some e => ⟨[u.user_id], c.notifications.map (fun n => (u.user_id, n)), some e⟩
      | none =>
        let r := runTick t subsOf respOf rest
        ⟨u.user_id :: r.checked,
          c.notifications.map (fun n => (u.user_id, n)) ++ r.notified, r.error⟩

/-- C9: a due user with an empty subscription set is a no-op — the check
returns before the metrics fetch, sends no notification and raises
nothing. -/
theorem empty_subscription_check_is_noop :
    ∀ (resp : CoefficientsResponse) (T : ℚ),
      check_coefficients_for_user [] resp T = ⟨false, [], none⟩ := by
  intro resp T
  cases resp <;> rfl

/-- C2 (evaluating the code at the failing input): at tick 0 both users are
due (frequency 5), user 1's coefficients fetch returns the non-200 dict
`{"error": 401}`; iterating it raises `TypeError`, which propagates out of
`check_coefficients_for_user` and out of the scheduler loop: user 2 is
never checked, no notification is sent, and the loop terminates —
contradicting the claimed per-user isolation. -/
theorem failed_fetch_aborts_tick_and_scheduler :
    dueCheck 0 5 = .ok true
    ∧ runTick 0 (fun _ => [(10 : Int)])
        (fun uid => if uid = 1 then .errDict 401 else .list [⟨"W", 0, "B", "d"⟩])
        [⟨1, "k1", 5, 5⟩, ⟨2, "k2", 5, 5⟩]
      = ⟨[1], [], some .typeError⟩ := by
  constructor
  · rfl
  · rfl

/-- C3 counterexample: with one subscribed warehouse, a successful fetch
whose single coefficient (6) exceeds the threshold (5) leaves zero
qualifying metrics, yet `notify_user` is still invoked (line 517 is
unconditional) — with the empty list as payload.  So "the Notifier is
invoked if and only if the sequence is non-empty" is false. -/
theorem notifier_called_with_zero_qualifying :
    check_coefficients_for_user [10] (.list [⟨"W", 6, "B", "d"⟩]) 5
      = ⟨true, [[]], none⟩
    ∧ good_coefficients [⟨"W", 6, "B", "d"⟩] 5 = [] := by
  constructor <;> decide

/-- C3 as amended: the qualifying metrics are collected in upstream order
(the collected list is a sublist of the fetched list), and after every
successful fetch with a non-empty subscription set `notify_user` is invoked
exactly once with that list — unconditionally, even when it is empty. -/
theorem notifier_always_called_after_successful_fetch :
    ∀ (subs : List Int) (cs : List Coefficient) (T : ℚ),
      subs ≠ [] →
      check_coefficients_for_user subs (.list cs) T
        = ⟨true, [good_coefficients cs T], none⟩
      ∧ (good_coefficients cs T).Sublist cs := by
  intro subs cs T h
  cases subs with
  | nil => exact absurd rfl h
  | cons a l => exact ⟨rfl, List.filter_sublist cs⟩

/-- Witness for the amended C3 at a concrete input. -/
theorem notifier_always_called_witness :
    (([10] : List Int) ≠ [])
    ∧ (check_coefficients_for_user [10] (.list [⟨"W", 0, "B", "d"⟩]) 5
        = ⟨true, [good_coefficients [⟨"W", 0, "B", "d"⟩] 5], none⟩
      ∧ (good_coefficients [⟨"W", 0, "B", "d"⟩] 5).Sublist [⟨"W", 0, "B", "d"⟩]) :=
  ⟨by decide, notifier_always_called_after_successful_fetch [10] _ 5 (by decide)⟩

/-- When no user's check raises, the users whose check was invoked at tick
`t` are exactly those whose `polling_frequency` divides `t`, in list
order. -/
theorem runTick_checked_eq (t : Nat) (subsOf : Nat → List Int)
    (respOf : Nat → CoefficientsResponse) :
    ∀ users : List UserRow,
      (∀ u ∈ users, 0 < u.polling_frequency) →
      (runTick t subsOf respOf users).error = none →
      (runTick t subsOf respOf users).checked
        = (users.filter (fun u => decide (t % u.polling_frequency = 0))).map
            UserRow.user_id := by
  intro users
  induction users with
  | nil => intro _ _; rfl
  | cons u rest ih =>
    intro hpos herr
    have hf : ¬ u.polling_frequency = 0 :=
      Nat.pos_iff_ne_zero.mp (hpos u (List.mem_cons_self u rest))
    have hrest : ∀ v ∈ rest, 0 < v.polling_frequency :=
      fun v hv => hpos v (List.mem_cons_of_mem u hv)
    by_cases hd : t % u.polling_frequency = 0
    · cases hc : (check_coefficients_for_user (subsOf u.user_id) (respOf u.user_id)
          u.notification_threshold).error with
      | some e =>
        exfalso
        simp only [runTick, dueCheck, if_neg hf, hd, decide_True, hc] at herr
        exact Option.noConfusion herr
      | none =>
        have herr' : (runTick t subsOf respOf rest).error = none := by
          simp only [runTick, dueCheck, if_neg hf, hd, decide_True, hc] at herr
          exact herr
        simp only [runTick, dueCheck, if_neg hf, hd, decide_True, hc,
          List.filter_cons, List.map_cons, ih hrest herr']
        simp
    · have herr' : (runTick t subsOf respOf rest).error = none := by
        simp only [runTick, dueCheck, if_neg hf, hd, decide_False] at herr
        exact herr
      simp only [runTick, dueCheck, if_neg hf, hd, decide_False, List.filter_cons,
        ih hrest herr']
      simp

/-- C4: provided every stored frequency is positive and the tick's checks
raise nothing, a user's check is triggered at tick `t` iff
`t mod polling_frequency = 0` (the invoked checks are exactly the filter of
the user list by that guard), each user is marked due at most once per tick
(the invocation count of any user id is at most 1 when ids are unique), and
the guard itself satisfies the spec's scenario: frequency 15 is due at tick
30 and not at tick 31. -/
theorem user_due_iff_tick_mod_frequency_zero :
    ∀ (t : Nat) (subsOf : Nat → List Int) (respOf : Nat → CoefficientsResponse)
      (users : List UserRow) (uid : Nat),
      (∀ u ∈ users, 0 < u.polling_frequency) →
      (runTick t subsOf respOf users).error = none →
      ((users.map UserRow.user_id).Nodup) →
      ((runTick t subsOf respOf users).checked
          = (users.filter (fun u => decide (t % u.polling_frequency = 0))).map
              UserRow.user_id
        ∧ (runTick t subsOf respOf users).checked.count uid ≤ 1
        ∧ dueCheck 30 15 = .ok true ∧ dueCheck 31 15 = .ok false) := by
  intro t subsOf respOf users uid hpos herr hnd
  have hch := runTick_checked_eq t subsOf respOf users hpos herr
  refine ⟨hch, ?_, rfl, rfl⟩
  rw [hch]
  have hsub : ((users.filter
        (fun u => decide (t % u.polling_frequency = 0))).map UserRow.user_id).Sublist
      (users.map UserRow.user_id) :=
    (List.filter_sublist users).map UserRow.user_id
  exact le_trans (hsub.count_le uid) (List.nodup_iff_count_le_one.mp hnd uid)

/-- Witness for C4 at a concrete input: one user with frequency 15 at tick
30. -/
theorem user_due_iff_witness :
    (∀ u ∈ ([⟨1, "k", 15, 5⟩] : List UserRow), 0 < u.polling_frequency)
    ∧ (runTick 30 (fun _ => []) (fun _ => .list []) [⟨1, "k", 15, 5⟩]).error = none
    ∧ (([⟨1, "k", 15, 5⟩] : List UserRow).map UserRow.user_id).Nodup
    ∧ ((runTick 30 (fun _ => []) (fun _ => .list []) [⟨1, "k", 15, 5⟩]).checked
          = (([⟨1, "k", 15, 5⟩] : List UserRow).filter
              (fun u => decide (30 % u.polling_frequency = 0))).map UserRow.user_id
        ∧ (runTick 30 (fun _ => []) (fun _ => .list []) [⟨1, "k", 15, 5⟩]).checked.count 1 ≤ 1
        ∧ dueCheck 30 15 = .ok true ∧ dueCheck 31 15 = .ok false) :=
  ⟨by decide, rfl, by decide,
    user_due_iff_tick_mod_frequency_zero 30 (fun _ => []) (fun _ => .list [])
      [⟨1, "k", 15, 5⟩] 1 (by decide) rfl (by decide)⟩

/-- Decides whether `pat` is an initial segment of
`l`; used to embed Python's `startswith` and substring tests on the
character lists underlying strings. -/
def isPrefixList : List Char → List Char → Bool
  | [], _ => true
  | _ :: _, [] => false
  | a :: pat, b :: l => a == b && isPrefixList pat l

/-- Decides the Python substring test `pat in l`. -/
def containsSub (pat : List Char) : List Char → Bool
  | [] => pat.isEmpty
  | c :: rest => isPrefixList pat (c :: rest) || containsSub pat rest

/-- The exclusion test of `update_warehouses_in_db` (line 96): Python's
`"СЦ" in name` (the insert is guarded by its negation). -/
def hasServiceCenterMarker (name : String) : Bool :=
  containsSub "СЦ".data name.data

/-- One item of the JSON array returned by the warehouses directory
endpoint, restricted to the fields read at lines 94-95 (`warehouse.get('ID')`
and `warehouse.get('name')`). -/
structure WarehouseEntry where
  ID : Int
  name : String
deriving DecidableEq, Repr

/-- A row of the `warehouses` table: `(warehouse_id, name)` (the
`last_updated` timestamp carries no information the claims mention). -/
abbrev CatalogRow := Int × String

/-- The SQL statement at lines 88-92: `INSERT .. ON CONFLICT (warehouse_id)
DO UPDATE SET name = EXCLUDED.name` — insert keyed by `warehouse_id`,
updating the name of an existing row on conflict. -/
def upsertWarehouse (db : List CatalogRow) (wid : Int) (name : String) : List CatalogRow :=
  if db.any (fun r => r.1 == wid) then
    db.map (fun r => if r.1 == wid then (wid, name) else r)
  else
    db ++ [(wid, name)]

/-- The function `update_warehouses_in_db` (lines 85-97): for each upstream entry, skip
it when its name contains the marker, otherwise upsert it. -/
def update_warehouses_in_db (db : List CatalogRow) (data : List WarehouseEntry) :
    List CatalogRow :=
  data.foldl
    (fun acc w => if hasServiceCenterMarker w.name then acc else upsertWarehouse acc w.ID w.name)
    db

/-- Every row of an upsert result is either an old row or the upserted
pair. -/
theorem mem_upsertWarehouse (db : List CatalogRow) (wid : Int) (name : String) :
    ∀ r ∈ upsertWarehouse db wid name, r ∈ db ∨ r = (wid, name) := by
  intro r hr
  unfold upsertWarehouse at hr
  by_cases h : db.any (fun r => r.1 == wid)
  · rw [if_pos h] at hr
    obtain ⟨x, hx, hxr⟩ := List.mem_map.mp hr
    by_cases hxw : x.1 == wid
    · right
      rw [if_pos hxw] at hxr
      exact hxr.symm
    · left
      rw [if_neg hxw] at hxr
      exact hxr ▸ hx
  · rw [if_neg h] at hr
    rcases List.mem_append.mp hr with h1 | h1
    · exact Or.inl h1
    · exact Or.inr (List.mem_singleton.mp h1)

/-- C7: a refresh never inserts a resource whose name contains the
exclusion marker, and the marker-free invariant of the catalog is preserved
by every refresh: if no row of the catalog has a marked name, none has
after `update_warehouses_in_db` either. -/
theorem catalog_never_contains_marker :
    ∀ (data : List WarehouseEntry) (db : List CatalogRow),
      (∀ r ∈ db, hasServiceCenterMarker r.2 = false) →
      ∀ r ∈ update_warehouses_in_db db data, hasServiceCenterMarker r.2 = false := by
  intro data
  induction data with
  | nil => intro db hdb; exact hdb
  | cons w rest ih =>
    intro db hdb
    rw [update_warehouses_in_db, List.foldl_cons]
    by_cases hm : hasServiceCenterMarker w.name
    · rw [if_pos hm]
      exact ih db hdb
    · rw [if_neg hm]
      refine ih (upsertWarehouse db w.ID w.name) ?_
      intro r hr
      rcases mem_upsertWarehouse db w.ID w.name r hr with h1 | h1
      · exact hdb r h1
      · rw [h1]
        exact Bool.not_eq_true _ ▸ hm

/-- Witness for C7: a refresh of the empty catalog with one marked and one
unmarked entry yields a marker-free catalog. -/
theorem catalog_never_contains_marker_witness :
    (∀ r ∈ ([] : List CatalogRow), hasServiceCenterMarker r.2 = false)
    ∧ (∀ r ∈ update_warehouses_in_db [] [⟨1, "СЦ Тест"⟩, ⟨2, "Коледино"⟩],
        hasServiceCenterMarker r.2 = false) :=
  ⟨by decide,
    catalog_never_contains_marker [⟨1, "СЦ Тест"⟩, ⟨2, "Коледино"⟩] [] (by decide)⟩

/-- A row of the `user_warehouses` table: `(user_id, warehouse_id)`. -/
abbrev SubscriptionRow := Nat × Int

/-- The handler `warehouse_selected` (lines 252-291), at the level of the
`user_warehouses` table, after the `telegram_id → user_id` lookup: read the
user's currently selected warehouse ids; if the toggled id is among them,
`DELETE` the matching rows, else `INSERT` the pair. -/
def warehouse_selected (db : List SubscriptionRow) (uid : Nat) (wid : Int) :
    List SubscriptionRow :=
  let selected_ids := (db.filter (fun r => r.1 == uid)).map (fun r => r.2)
  if wid ∈ selected_ids then
    db.filter (fun r => !(r.1 == uid && r.2 == wid))
  else
    db ++ [(uid, wid)]

/-- The toggled warehouse id is among the user's selected ids iff the pair
is a row of the table. -/
theorem mem_selected_iff (db : List SubscriptionRow) (uid : Nat) (wid : Int) :
    wid ∈ (db.filter (fun r => r.1 == uid)).map (fun r => r.2) ↔ (uid, wid) ∈ db := by
  constructor
  · intro h
    obtain ⟨r, hr, hr2⟩ := List.mem_map.mp h
    obtain ⟨hrdb, hr1⟩ := List.mem_filter.mp hr
    have : r = (uid, wid) := by
      obtain ⟨a, b⟩ := r
      simp only [beq_iff_eq] at hr1
      simp_all
    exact this ▸ hrdb
  · intro h
    exact List.mem_map.mpr ⟨(uid, wid), List.mem_filter.mpr ⟨h, by simp⟩, rfl⟩

/-- C8: toggling is an involution on membership — after toggling the same
`(user, warehouse)` pair twice, a row belongs to the table iff it did
originally; and the spec's scenario: starting from no subscriptions,
one toggle of warehouse 2 for user 1 yields exactly the row `(1, 2)` and a
second toggle removes it, leaving zero rows. -/
theorem subscription_toggle_involution :
    (∀ (db : List SubscriptionRow) (uid : Nat) (wid : Int) (r : SubscriptionRow),
      r ∈ warehouse_selected (warehouse_selected db uid wid) uid wid ↔ r ∈ db)
    ∧ warehouse_selected [] 1 2 = [(1, 2)]
    ∧ warehouse_selected [(1, 2)] 1 2 = [] := by
  refine ⟨?_, by decide, by decide⟩
  intro db uid wid r
  have hpred : ∀ s : SubscriptionRow, (!(s.1 == uid && s.2 == wid)) = true ↔ s ≠ (uid, wid) := by
    intro s
    obtain ⟨a, b⟩ := s
    simp [Prod.ext_iff]
    tauto
  by_cases h : (uid, wid) ∈ db
  · -- first toggle deletes the pair, second re-inserts it
    have e1 : warehouse_selected db uid wid
        = db.filter (fun s => !(s.1 == uid && s.2 == wid)) := by
      simp only [warehouse_selected]
      exact if_pos ((mem_selected_iff db uid wid).mpr h)
    have hdel : (uid, wid) ∉ db.filter (fun s => !(s.1 == uid && s.2 == wid)) := by
      intro hmem
      exact absurd rfl ((hpred _).mp (List.mem_filter.mp hmem).2)
    have e2 : warehouse_selected (db.filter (fun s => !(s.1 == uid && s.2 == wid))) uid wid
        = db.filter (fun s => !(s.1 == uid && s.2 == wid)) ++ [(uid, wid)] := by
      simp only [warehouse_selected]
      exact if_neg (fun hc => hdel ((mem_selected_iff _ uid wid).mp hc))
    rw [e1, e2]
    constructor
    · intro hr
      rcases List.mem_append.mp hr with h1 | h1
      · exact (List.mem_filter.mp h1).1
      · exact (List.mem_singleton.mp h1) ▸ h
    · intro hr
      by_cases hreq : r = (uid, wid)
      · exact List.mem_append.mpr (Or.inr (List.mem_singleton.mpr hreq))
      · exact List.mem_append.mpr
          (Or.inl (List.mem_filter.mpr ⟨hr, (hpred r).mpr hreq⟩))
  · -- first toggle inserts the pair, second deletes it again
    have e1 : warehouse_selected db uid wid = db ++ [(uid, wid)] := by
      simp only [warehouse_selected]
      exact if_neg (fun hc => h ((mem_selected_iff db uid wid).mp hc))
    have hins : (uid, wid) ∈ db ++ [(uid, wid)] :=
      List.mem_append.mpr (Or.inr (List.mem_singleton.mpr rfl))
    have e2 : warehouse_selected (db ++ [(uid, wid)]) uid wid
        = (db ++ [(uid, wid)]).filter (fun s => !(s.1 == uid && s.2 == wid)) := by
      simp only [warehouse_selected]
      exact if_pos ((mem_selected_iff _ uid wid).mpr hins)
    rw [e1, e2, List.filter_append]
    constructor
    · intro hr
      rcases List.mem_append.mp hr with h1 | h1
      · exact (List.mem_filter.mp h1).1
      · exact absurd ((hpred _).mp (List.mem_filter.mp h1).2)
          (fun hc => hc (List.mem_singleton.mp (List.mem_filter.mp h1).1))
    · intro hr
      refine List.mem_append.mpr (Or.inl (List.mem_filter.mpr ⟨hr, (hpred r).mpr ?_⟩))
      intro hc
      exact h (hc ▸ hr)

/-- Python's `s.split('_')` on the underlying character list: maximal
runs between underscore separators, with empty segments preserved. -/
def splitUnderscore : List Char → List (List Char)
  | [] => [[]]
  | c :: rest =>
    if c == '_' then [] :: splitUnderscore rest
    else
      match splitUnderscore rest with
      | [] => [[c]]
      | seg :: segs => (c :: seg) :: segs

/-- Accumulating decimal parser for a run of digit characters. -/
def digitsToNatAux : Nat → List Char → Option Nat
  | acc, [] => some acc
  | acc, c :: rest =>
    if c.isDigit then digitsToNatAux (acc * 10 + (c.toNat - 48)) rest else none

/-- A non-empty all-digit run parsed as a natural number. -/
def parseDigits (cs : List Char) : Option Nat :=
  if cs.isEmpty then none else digitsToNatAux 0 cs

/-- Python's `int(s)` restricted to an optional sign followed by decimal
digits (`none` embeds the `ValueError` raise; surrounding whitespace and
digit-group underscores, which no run of this program produces, are not
modelled). -/
def pyInt : List Char → Option Int
  | '-' :: rest => (parseDigits rest).map (fun n => -(n : Int))
  | '+' :: rest => (parseDigits rest).map (fun n => (n : Int))
  | cs => (parseDigits cs).map (fun n => (n : Int))

/-- The router filter of `process_new_polling_frequency` (line 405):
`callback.data.startswith('set_polling_')`.  Any callback event whose data
passes this test is dispatched to the handler. -/
def callbackMatchesPollingHandler (data : String) : Bool :=
  isPrefixList "set_polling_".data data.data

/-- The handler `process_new_polling_frequency` (lines 404-418):
`new_frequency = int(callback.data.split('_')[-1])` followed by
`UPDATE users SET polling_frequency = ...` with no validation of the parsed
value; `.ok n` is the value written to the store, `.error` the uncaught
`ValueError` when the suffix is not an integer literal. -/
def process_new_polling_frequency (data : String) : Except PyError Int :=
  match pyInt ((splitUnderscore data.data).getLastD []) with
  | some n => .ok n
  | none => .error .valueError

/-- C5 counterexample: the forged callback data `"set_polling_0"` passes
the router filter of the handler, and the handler stores frequency `0`,
which is outside `{5, 15, 30, 60}` and violates `pollingFrequency ≥ 1` (so
the due computation `loop_num % 0` of the scheduler then raises
`ZeroDivisionError`); likewise `"set_polling_7"` stores `7`, outside the
enumerated set even though positive. -/
theorem forged_polling_callback_stores_zero :
    callbackMatchesPollingHandler "set_polling_0" = true
    ∧ process_new_polling_frequency "set_polling_0" = .ok 0
    ∧ (0 : Int) ∉ ([5, 15, 30, 60] : List Int)
    ∧ ¬(1 : Int) ≤ 0
    ∧ dueCheck 7 0 = .error .zeroDivisionError
    ∧ callbackMatchesPollingHandler "set_polling_7" = true
    ∧ process_new_polling_frequency "set_polling_7" = .ok 7
    ∧ (7 : Int) ∉ ([5, 15, 30, 60] : List Int) := by
  refine ⟨by decide, rfl, by decide, by decide, rfl, by decide, rfl, by decide⟩

/-- The frequency-selection keyboard built by `edit_polling_frequency`
(lines 394-401): button label and callback data. -/
def edit_polling_frequency_keyboard : List (String × String) :=
  [("5 минут", "set_polling_5"), ("15 минут", "set_polling_15"),
   ("30 минут", "set_polling_30"), ("60 минут", "set_polling_60")]

/-- C5 as amended: for every callback the bot's own frequency keyboard can
generate, the handler matches it and stores a frequency in `{5, 15, 30,
60}` (hence ≥ 1, and the scheduler's modulo is never by zero); the handler
itself, however, validates nothing, so this holds only for
keyboard-generated callbacks, not for every callback matching its filter. -/
theorem keyboard_polling_callback_stores_valid_frequency :
    ∀ b ∈ edit_polling_frequency_keyboard,
      callbackMatchesPollingHandler b.2 = true
      ∧ ∃ n : Int, process_new_polling_frequency b.2 = .ok n
          ∧ n ∈ ([5, 15, 30, 60] : List Int) ∧ (1 : Int) ≤ n
          ∧ ∀ t : Nat, dueCheck t n.toNat = .ok (decide (t % n.toNat = 0)) := by
    intro b hb
    fin_cases hb
    · exact ⟨by decide, 5, rfl, by decide, by decide, fun t => by rfl⟩
    · exact ⟨by decide, 15, rfl, by decide, by decide, fun t => by rfl⟩
    · exact ⟨by decide, 30, rfl, by decide, by decide, fun t => by rfl⟩
    · exact ⟨by decide, 60, rfl, by decide, by decide, fun t => by rfl⟩

/-- Witness for the amended C5 at the keyboard's first button. -/
theorem keyboard_polling_callback_witness :
    (("5 минут", "set_polling_5") ∈ edit_polling_frequency_keyboard)
    ∧ (callbackMatchesPollingHandler "set_polling_5" = true
      ∧ ∃ n : Int, process_new_polling_frequency "set_polling_5" = .ok n
          ∧ n ∈ ([5, 15, 30, 60] : List Int) ∧ (1 : Int) ≤ n
          ∧ ∀ t : Nat, dueCheck t n.toNat = .ok (decide (t % n.toNat = 0))) :=
  ⟨by decide,
    keyboard_polling_callback_stores_valid_frequency ("5 минут", "set_polling_5")
      (by decide)⟩

/-- The per-user transient conversation state: aiogram's FSM states of
`RegistrationStates` (lines 123-129), plus `idle` for the cleared state. -/
inductive ConvState
  | idle
  | enteringApiKey
  | choosingWarehouses
  | editingWarehouses
  | editingNotificationThreshold
  | editingPollingFrequency
  | editingApiKey
deriving DecidableEq, Repr

/-- Modelled from the spec: the schema file `database.sql` (executed by
`setup_database` but absent from `src/`) constrains the stored
`notification_threshold`.  The spec requires "`notificationThreshold`
within bounds" of the domain range [0, 20] ("never store out-of-range"),
and the handler catches `asyncpg.exceptions.CheckViolationError` (line
446), so the schema's CHECK constraint is modelled as accepting exactly
`0 ≤ x ≤ 20` and raising the check violation otherwise. -/
def thresholdCheckConstraint (x : ℚ) : Except PyError ℚ :=
  if 0 ≤ x ∧ x ≤ 20 then .ok x else .error .checkViolationError

/-- Observable outcome of one `process_new_notification_threshold` call:
the user's conversation state afterwards, the successful store writes (in
order), and whether the reprompt message was sent. -/
structure ThresholdEditOutcome where
  state : ConvState
  writes : List ℚ
  reprompted : Bool
deriving DecidableEq, Repr

/-- The handler `process_new_notification_threshold` (lines 430-447), handling a
message in the `editing_notification_threshold` state.  The input is the
outcome of `float(message.text)` (`none` embeds the `ValueError` raise on
non-numeric text).  A parsed value is written through the store's CHECK
constraint; `ValueError` and `CheckViolationError` are both caught by the
reprompt branch.  No branch calls `state.set_state` or `state.clear`, so
the conversation state is `editing_notification_threshold` on every exit
path. -/
def process_new_notification_threshold (input : Option ℚ) : ThresholdEditOutcome :=
  match input with
  | none => ⟨.editingNotificationThreshold, [], true⟩
  | some x =>
    match thresholdCheckConstraint x with
    | .ok v => ⟨.editingNotificationThreshold, [v], false⟩
    | .error _ => ⟨.editingNotificationThreshold, [], true⟩

/-- C6 counterexample: the valid in-range input `5` is stored exactly once,
but the conversation state after the handler is still
`EditingThreshold`, not `Idle` — the success branch never clears the FSM
state. -/
theorem valid_threshold_leaves_editing_state :
    process_new_notification_threshold (some 5)
      = ⟨.editingNotificationThreshold, [5], false⟩
    ∧ ConvState.editingNotificationThreshold ≠ ConvState.idle := by
  refine ⟨by decide, by decide⟩

/-- C6 as amended: a valid in-range numeric input is written to the store
exactly once (and the main menu is shown), but the conversation state
remains `EditingThreshold` rather than returning to `Idle`; a non-numeric
or out-of-range input stores nothing (never partially), leaves the state in
`EditingThreshold` and reprompts the user. -/
theorem threshold_edit_behaviour :
    ∀ x : ℚ,
      (0 ≤ x → x ≤ 20 →
        process_new_notification_threshold (some x)
          = ⟨.editingNotificationThreshold, [x], false⟩)
      ∧ ((x < 0 ∨ 20 < x) →
        process_new_notification_threshold (some x)
          = ⟨.editingNotificationThreshold, [], true⟩)
      ∧ process_new_notification_threshold none
          = ⟨.editingNotificationThreshold, [], true⟩ := by
  intro x
  refine ⟨?_, ?_, rfl⟩
  · intro h1 h2
    simp only [process_new_notification_threshold, thresholdCheckConstraint,
      if_pos (And.intro h1 h2)]
  · intro h
    have hn : ¬(0 ≤ x ∧ x ≤ 20) := by
      rcases h with h | h
      · exact fun hc => absurd hc.1 (not_le.mpr h)
      · exact fun hc => absurd hc.2 (not_le.mpr h)
    simp only [process_new_notification_threshold, thresholdCheckConstraint, if_neg hn]

/-- Witness for the amended C6: valid input 5 and out-of-range input 25. -/
theorem threshold_edit_behaviour_witness :
    ((0 : ℚ) ≤ 5 ∧ (5 : ℚ) ≤ 20
      ∧ process_new_notification_threshold (some 5)
          = ⟨.editingNotificationThreshold, [5], false⟩)
    ∧ (((25 : ℚ) < 0 ∨ (20 : ℚ) < 25)
      ∧ process_new_notification_threshold (some 25)
          = ⟨.editingNotificationThreshold, [], true⟩) :=
  ⟨⟨by decide, by decide, (threshold_edit_behaviour 5).1 (by decide) (by decide)⟩,
    ⟨Or.inr (by decide), (threshold_edit_behaviour 25).2.1 (Or.inr (by decide))⟩⟩

/-- An aiogram `InlineKeyboardButton` as constructed in
`generate_warehouse_keyboard`: label text and callback data. -/
structure InlineButton where
  text : String
  callback_data : String
deriving DecidableEq, Repr

/-- The constant `WAREHOUSES_PER_PAGE` (line 40). -/
def WAREHOUSES_PER_PAGE : Nat := 6

/-- A row of the `warehouses` table as read by
`get_available_warehouses` (lines 188-194). -/
structure CatalogWarehouse where
  warehouse_id : Int
  name : String
deriving DecidableEq, Repr

/-- The selection button built for one warehouse (lines 212-218): a check
mark prepended when already selected, callback data
`select_<id>_page_<page>`. -/
def warehouseButton (selected_ids : List Int) (page : Nat) (w : CatalogWarehouse) :
    InlineButton :=
  { text := if w.warehouse_id ∈ selected_ids then "✅ " ++ w.name else w.name,
    callback_data :=
      "select_" ++ toString w.warehouse_id ++ "_page_" ++ toString page }

/-- The button loop of `generate_warehouse_keyboard` (lines 210-222):
`buttons` accumulates the current pair and is flushed into a keyboard row
after every second button (`if index % 2 == 1`); whatever remains in
`buttons` when the loop ends is never added to the keyboard. -/
def warehouseButtonRows (sel : List Int) (page : Nat) :
    List CatalogWarehouse → Nat → List InlineButton → List (List InlineButton)
  | [], _, _ => []
  | w :: rest, index, buttons =>
    if index % 2 = 1 then
      (buttons ++ [warehouseButton sel page w])
        :: warehouseButtonRows sel page rest (index + 1) []
    else
      warehouseButtonRows sel page rest (index + 1)
        (buttons ++ [warehouseButton sel page w])

/-- The navigation row (lines 224-232): `<<` when not on the first page,
the save button, `>>` when more warehouses follow the current slice. -/
def navigationRow (total : Nat) (page : Nat) : List InlineButton :=
  (if 0 < page then [⟨"<<", "page_" ++ toString (page - 1)⟩] else [])
  ++ [⟨"Сохранить", "done"⟩]
  ++ (if page * WAREHOUSES_PER_PAGE + WAREHOUSES_PER_PAGE < total then
        [⟨">>", "page_" ++ toString (page + 1)⟩] else [])

/-- The function `generate_warehouse_keyboard` (lines 198-238): the rows produced by the
button loop over the current page's slice of the catalog, followed by the
navigation row. -/
def generate_warehouse_keyboard (warehouses : List CatalogWarehouse)
    (selected_ids : List Int) (page : Nat) : List (List InlineButton) :=
  warehouseButtonRows selected_ids page
    ((warehouses.drop (page * WAREHOUSES_PER_PAGE)).take WAREHOUSES_PER_PAGE) 0 []
  ++ [navigationRow warehouses.length page]

/-- The flattened output of the button loop is the pending buffer followed
by the page's buttons, truncated to the longest even-length whole-pair
output (the unpaired remainder is discarded). -/
theorem warehouseButtonRows_join (sel : List Int) (page : Nat) :
    ∀ (l : List CatalogWarehouse) (i : Nat) (buf : List InlineButton),
      buf.length = i % 2 →
      (warehouseButtonRows sel page l i buf).flatten
        = (buf ++ l.map (warehouseButton sel page)).take
            (2 * ((buf.length + l.length) / 2)) := by
  intro l
  induction l with
  | nil =>
    intro i buf hbuf
    rcases Nat.mod_two_eq_zero_or_one i with h | h
    · rw [h] at hbuf
      have hnil : buf = [] := List.eq_nil_of_length_eq_zero hbuf
      subst hnil
      rfl
    · rw [h] at hbuf
      obtain ⟨b0, rfl⟩ := List.length_eq_one.mp hbuf
      simp [warehouseButtonRows]
  | cons w rest ih =>
    intro i buf hbuf
    by_cases hi : i % 2 = 1
    · have hbuf1 : buf.length = 1 := by rw [hbuf, hi]
      obtain ⟨b0, rfl⟩ := List.length_eq_one.mp hbuf1
      have ihr := ih (i + 1) [] (by simp only [List.length_nil]; omega)
      simp only [warehouseButtonRows, if_pos hi, List.flatten_cons, ihr,
        List.length_nil, List.nil_append, Nat.zero_add, List.length_singleton,
        List.map_cons, List.length_cons]
      have harith : 2 * ((1 + (rest.length + 1)) / 2)
          = ([b0, warehouseButton sel page w] : List InlineButton).length
            + 2 * (rest.length / 2) := by
        simp only [List.length_cons, List.length_nil]
        omega
      rw [harith]
      rw [show ([b0] ++ warehouseButton sel page w :: List.map (warehouseButton sel page) rest)
            = [b0, warehouseButton sel page w] ++ List.map (warehouseButton sel page) rest
          from rfl]
      rw [List.take_append]
      rfl
    · have hi0 : i % 2 = 0 := (Nat.mod_two_eq_zero_or_one i).resolve_right hi
      rw [hi0] at hbuf
      have hnil : buf = [] := List.eq_nil_of_length_eq_zero hbuf
      subst hnil
      have ihr := ih (i + 1) [warehouseButton sel page w]
        (by simp only [List.length_singleton]; omega)
      simp only [warehouseButtonRows, if_neg hi, List.nil_append]
      rw [ihr]
      simp only [List.length_singleton, List.length_nil, Nat.zero_add,
        List.nil_append, List.singleton_append, List.map_cons, List.length_cons]
      rw [Nat.add_comm 1 rest.length]

/-- C10: the keyboard is the button loop's rows followed by the navigation
row; the selection buttons actually emitted are exactly the longest
even-length initial segment of the page slice's buttons — `2 * (n / 2)` of
the slice's `n` buttons, so on a page with an odd number of warehouses the
last warehouse's selection button is discarded, never rendered.  The final
conjunct is a concrete instance: a 7-warehouse catalog on page 1 renders
no selection button at all for its single (7th) warehouse. -/
theorem odd_page_drops_last_selection_button :
    (∀ (warehouses : List CatalogWarehouse) (sel : List Int) (page : Nat),
      generate_warehouse_keyboard warehouses sel page
        = warehouseButtonRows sel page
            ((warehouses.drop (page * WAREHOUSES_PER_PAGE)).take WAREHOUSES_PER_PAGE) 0 []
          ++ [navigationRow warehouses.length page]
      ∧ (warehouseButtonRows sel page
            ((warehouses.drop (page * WAREHOUSES_PER_PAGE)).take WAREHOUSES_PER_PAGE) 0 []).flatten
        = (((warehouses.drop (page * WAREHOUSES_PER_PAGE)).take WAREHOUSES_PER_PAGE).map
            (warehouseButton sel page)).take
            (2 * (((warehouses.drop (page * WAREHOUSES_PER_PAGE)).take
                WAREHOUSES_PER_PAGE).length / 2))
      ∧ (warehouseButtonRows sel page
            ((warehouses.drop (page * WAREHOUSES_PER_PAGE)).take WAREHOUSES_PER_PAGE) 0 []).flatten.length
        = 2 * (((warehouses.drop (page * WAREHOUSES_PER_PAGE)).take
            WAREHOUSES_PER_PAGE).length / 2))
    ∧ generate_warehouse_keyboard
        [⟨1, "W1"⟩, ⟨2, "W2"⟩, ⟨3, "W3"⟩, ⟨4, "W4"⟩, ⟨5, "W5"⟩, ⟨6, "W6"⟩, ⟨7, "W7"⟩]
        [] 1
      = [[⟨"<<", "page_0"⟩, ⟨"Сохранить", "done"⟩]] := by
  constructor
  · intro warehouses sel page
    refine ⟨rfl, ?_, ?_⟩
    · have h := warehouseButtonRows_join sel page
        ((warehouses.drop (page * WAREHOUSES_PER_PAGE)).take WAREHOUSES_PER_PAGE) 0 [] rfl
      simpa using h
    · have h := warehouseButtonRows_join sel page
        ((warehouses.drop (page * WAREHOUSES_PER_PAGE)).take WAREHOUSES_PER_PAGE) 0 [] rfl
      rw [h]
      simp only [List.nil_append, List.length_nil, Nat.zero_add]
      rw [List.length_take, List.length_map]
      exact min_eq_left (by omega)
  · decide

end CoefficientBot
